import Mathlib

/-!
Shallow embedding of the `copyrighter` repository's `MP3Tagger` class
(`src/mp3_tagger.py`, duplicated in `src/app.py`) and proofs about it.

Python strings are modelled as Lean `String` (a sequence of Unicode code
points).  The mutagen `ID3` tag container is a dictionary from frame-id
strings (`"TIT2"`, `"TPE1"`, `"TEXT"`, `"TCOM"`, `"TCOP"`, `"COMM::eng"`)
to the frame's stored text; it is modelled as an association list with
unique keys, so deletion removes every binding of the key.  The filesystem
is an association list from paths to file contents; a file's content is
its parseable tag block (`none` when the file has no parseable ID3 block,
the case where `mutagen.id3.ID3(path)` raises `ID3Error`) together with an
abstract identifier standing for the rest of the bytes.
-/

namespace Copyrighter

/-- Association-list lookup (Python `d[k]` / `k in d`). -/
def alookup {β : Type} : List (String × β) → String → Option β
  | [], _ => none
  | (k', v) :: t, k => if k' = k then some v else alookup t k

/-- Association-list store (Python `d[k] = v`): replace the binding in
place when the key is present, append otherwise. -/
def ainsert {β : Type} : List (String × β) → String → β → List (String × β)
  | [], k, v => [(k, v)]
  | (k', v') :: t, k, v => if k' = k then (k, v) :: t else (k', v') :: ainsert t k v

/-- Association-list delete (Python `del d[k]`): removes the key's binding
(dictionary keys are unique, so removing every occurrence is the same). -/
def aerase {β : Type} : List (String × β) → String → List (String × β)
  | [], _ => []
  | (k', v') :: t, k => if k' = k then aerase t k else (k', v') :: aerase t k

theorem alookup_ainsert_self {β : Type} (l : List (String × β)) (k : String) (v : β) :
    alookup (ainsert l k v) k = some v := by
  induction l with
  | nil => simp [ainsert, alookup]
  | cons hd t ih =>
    obtain ⟨k', v'⟩ := hd
    by_cases h : k' = k
    · simp [ainsert, alookup, h]
    · simp [ainsert, alookup, h, ih]

theorem alookup_ainsert_other {β : Type} (l : List (String × β)) (k k' : String) (v : β)
    (h : k' ≠ k) : alookup (ainsert l k v) k' = alookup l k' := by
  induction l with
  | nil => simp [ainsert, alookup, Ne.symm h]
  | cons hd t ih =>
    obtain ⟨k₀, v₀⟩ := hd
    by_cases h₀ : k₀ = k
    · subst h₀
      simp [ainsert, alookup, Ne.symm h]
    · simp [ainsert, alookup, h₀, ih]

theorem alookup_aerase_self {β : Type} (l : List (String × β)) (k : String) :
    alookup (aerase l k) k = none := by
  induction l with
  | nil => simp [aerase, alookup]
  | cons hd t ih =>
    obtain ⟨k', v'⟩ := hd
    by_cases h : k' = k
    · simp [aerase, h, ih]
    · simp [aerase, alookup, h, ih]

theorem alookup_aerase_other {β : Type} (l : List (String × β)) (k k' : String)
    (h : k' ≠ k) : alookup (aerase l k) k' = alookup l k' := by
  induction l with
  | nil => simp [aerase]
  | cons hd t ih =>
    obtain ⟨k₀, v₀⟩ := hd
    by_cases h₀ : k₀ = k
    · subst h₀
      simp [aerase, alookup, Ne.symm h, ih]
    · simp [aerase, alookup, h₀, ih]

/-- Characters stripped by Python's `str.strip()` (the Unicode whitespace
set used by `str.isspace`). -/
def pyIsSpace (c : Char) : Bool :=
  c = ' ' || c = '\t' || c = '\n' || c = '\x0b' || c = '\x0c' || c = '\r' ||
  c = '\x1c' || c = '\x1d' || c = '\x1e' || c = '\x1f' || c = '\x85' || c = '\xa0' ||
  c = '\u1680' || ('\u2000' ≤ c && c ≤ '\u200a') || c = '\u2028' || c = '\u2029' ||
  c = '\u202f' || c = '\u205f' || c = '\u3000'

/-- Python `value.strip()`: drop leading and trailing whitespace. -/
def pyStrip (s : String) : String :=
  String.mk (((s.data.dropWhile pyIsSpace).reverse.dropWhile pyIsSpace).reverse)

/-- Python `str.lower()`, restricted to its ASCII action (the only case
the program exercises: the `.mp3` extension test). -/
def pyLower (s : String) : String :=
  String.mk (s.data.map Char.toLower)

/-- Helper for suffix tests: is the first character list a prefix of the second? -/
def leadsChars : List Char → List Char → Bool
  | [], _ => true
  | _ :: _, [] => false
  | a :: as, b :: bs => a = b && leadsChars as bs

/-- Python `s.endswith(t)`. -/
def pyEndsWith (s t : String) : Bool :=
  leadsChars t.data.reverse s.data.reverse

/-- Python `s.startswith('/')`, as used by `posixpath.join`/`isabs`. -/
def startsWithSlash (s : String) : Bool :=
  match s.data with
  | [] => false
  | c :: _ => c = '/'

/-- POSIX `os.path.join` on two components: an absolute second component
replaces the first; otherwise join with a single `/` separator unless the
first component is empty or already ends in `/`. -/
def os_path_join (a b : String) : String :=
  if startsWithSlash b then b
  else if a = "" || pyEndsWith a "/" then a ++ b
  else a ++ "/" ++ b

/-- POSIX `os.path.dirname`: everything before the final `/`, with
trailing slashes stripped unless the head is all slashes. -/
def os_path_dirname (p : String) : String :=
  let rev := p.data.reverse
  let base := rev.takeWhile (fun c => c ≠ '/')
  let headRev := rev.drop base.length
  if headRev = [] then ""
  else if headRev.all (fun c => c = '/') then String.mk headRev.reverse
  else String.mk ((headRev.dropWhile (fun c => c = '/')).reverse)

/-- POSIX `os.path.isabs`. -/
def os_path_isabs (p : String) : Bool :=
  startsWithSlash p

/-- Exceptions raised by the program.  `FileNotFoundError` and
`ValueError` carry their message; `shutil.SameFileError` is raised by
`shutil.copy2` when source and destination are the same file; other
copy/save failures surface as `OSError`. -/
inductive Err : Type where
  | fileNotFound : String → Err
  | valueError : String → Err
  | sameFileError : Err
  | ioError : String → Err
deriving DecidableEq

/-- An ID3 tag container: frame id → stored frame text.  `str(frame)` on a
mutagen text frame returns the stored text, so frames are modelled by
their text directly. -/
abbrev ID3 : Type := List (String × String)

/-- The `tag_map` of `MP3Tagger.get_tag`: logical name → frame id. -/
def get_frame_id (tag_name : String) : Option String :=
  if tag_name = "title" then some "TIT2"
  else if tag_name = "artist" then some "TPE1"
  else if tag_name = "lyricist" then some "TEXT"
  else if tag_name = "composer" then some "TCOM"
  else if tag_name = "copyright" then some "TCOP"
  else if tag_name = "comment" then some "COMM::eng"
  else none

/-- The storage key used by `MP3Tagger.set_tag`: the `tag_map` there maps
names to frame classes, and both the store and the delete branch key the
dictionary by the class name (`TIT2`, `TPE1`, `TEXT`, `TCOM`, `TCOP`),
except `comment`, which is special-cased to the compound key
`COMM::eng` in both branches. -/
def set_frame_key (tag_name : String) : Option String :=
  if tag_name = "title" then some "TIT2"
  else if tag_name = "artist" then some "TPE1"
  else if tag_name = "lyricist" then some "TEXT"
  else if tag_name = "composer" then some "TCOM"
  else if tag_name = "copyright" then some "TCOP"
  else if tag_name = "comment" then some "COMM::eng"
  else none

/-- `MP3Tagger.get_tag`: unknown names raise `ValueError`; otherwise
return the mapped frame's text, or `""` when the frame is absent. -/
def get_tag (tags : ID3) (tag_name : String) : Except Err String :=
  match get_frame_id tag_name with
  | none => .error (.valueError ("Unknown tag: " ++ tag_name))
  | some frame_id =>
    match alookup tags frame_id with
    | some v => .ok v
    | none => .ok ""

/-- `MP3Tagger.set_tag`: unknown names raise `ValueError`; a value whose
`strip()` is non-empty is stored (unstripped) under the frame key, fully
replacing any prior frame; otherwise the frame is deleted when present. -/
def set_tag (tags : ID3) (tag_name : String) (value : String) : Except Err ID3 :=
  match set_frame_key tag_name with
  | none => .error (.valueError ("Unknown tag: " ++ tag_name))
  | some frame_id =>
    if pyStrip value ≠ "" then
      .ok (ainsert tags frame_id value)
    else
      if (alookup tags frame_id).isSome then .ok (aerase tags frame_id)
      else .ok tags

/-- `MP3Tagger.get_all_tags`: the dict literal of the six `get_tag` calls,
evaluated in source order. -/
def get_all_tags (tags : ID3) : Except Err (List (String × String)) :=
  match get_tag tags "title" with
  | .error e => .error e
  | .ok tv =>
    match get_tag tags "artist" with
    | .error e => .error e
    | .ok av =>
      match get_tag tags "lyricist" with
      | .error e => .error e
      | .ok lv =>
        match get_tag tags "composer" with
        | .error e => .error e
        | .ok cv =>
          match get_tag tags "copyright" with
          | .error e => .error e
          | .ok pv =>
            match get_tag tags "comment" with
            | .error e => .error e
            | .ok mv =>
              .ok [("title", tv), ("artist", av), ("lyricist", lv),
                   ("composer", cv), ("copyright", pv), ("comment", mv)]

/-- Content of a file on disk: its parseable ID3 tag block (`none` when
`ID3(path)` raises `ID3Error`, i.e. the block is missing or unparseable)
and an abstract identifier standing for the remaining bytes. -/
structure FileContent : Type where
  tagBlock : Option ID3
  audio : Nat
deriving DecidableEq

/-- The filesystem: path → file content for the existing files. -/
abbrev FS : Type := List (String × FileContent)

/-- An `MP3Tagger` instance: the source path and the in-memory tag set. -/
structure MP3Tagger : Type where
  file_path : String
  tags : ID3

/-- `MP3Tagger.__init__` followed by `_load_tags`: a missing path raises
`FileNotFoundError`; a path whose lowercased form does not end in `.mp3`
raises `ValueError`; otherwise the tag block is parsed, falling back to an
empty tag set when `ID3(path)` raises `ID3Error`. -/
def MP3Tagger.init (fs : FS) (file_path : String) : Except Err MP3Tagger :=
  match alookup fs file_path with
  | none => .error (.fileNotFound ("File not found: " ++ file_path))
  | some fc =>
    if pyEndsWith (pyLower file_path) ".mp3" then
      .ok ⟨file_path, match fc.tagBlock with | some t => t | none => []⟩
    else
      .error (.valueError "File must be an MP3 file")

/-- The directory `save_as_new_file` writes into: `output_directory` when
truthy (present and non-empty), else the source file's directory. -/
def save_target_dir (t : MP3Tagger) (output_directory : Option String) : String :=
  match output_directory with
  | some d => if d ≠ "" then d else os_path_dirname t.file_path
  | none => os_path_dirname t.file_path

/-- The filename `save_as_new_file` builds from a title value: the
copyright glyph in the source is U+00A9 followed by U+FE0F (emoji
variation selector). -/
def save_filename (title : String) : String :=
  (if title = "" then "Untitled" else title) ++
    " \u00A9\uFE0F Stiftelsen Skjulte Skatter Forlag.mp3"

/-- `shutil.copy2(src, dst)`: raises `SameFileError` when the destination
is the source file, copies the full content (tag block and audio bytes)
otherwise.  Name collisions at a distinct destination overwrite. -/
def shutil_copy2 (fs : FS) (src dst : String) : Except Err FS :=
  if dst = src then .error .sameFileError
  else
    match alookup fs src with
    | none => .error (.ioError "copy failed: source file missing")
    | some c => .ok (ainsert fs dst c)

/-- `self.tags.save(path)` (mutagen `ID3.save`): rewrite the tag block of
the file at `path`, leaving its audio bytes alone. -/
def id3_save_to (fs : FS) (p : String) (tags : ID3) : Except Err FS :=
  match alookup fs p with
  | none => .error (.ioError "save failed: destination missing")
  | some fc => .ok (ainsert fs p ⟨some tags, fc.audio⟩)

/-- `MP3Tagger.save_as_new_file`: read the title (substituting
`"Untitled"` for the falsy empty string), build the new filename, join it
onto the output directory (or the source's directory when the argument is
absent or falsy), copy the source file there with `shutil.copy2`, then
write the in-memory tag set into the copy and return its path together
with the updated filesystem. -/
def save_as_new_file (fs : FS) (t : MP3Tagger) (output_directory : Option String) :
    Except Err (String × FS) :=
  match get_tag t.tags "title" with
  | .error e => .error e
  | .ok title =>
    match shutil_copy2 fs t.file_path
        (os_path_join (save_target_dir t output_directory) (save_filename title)) with
    | .error e => .error e
    | .ok fs1 =>
      match id3_save_to fs1
          (os_path_join (save_target_dir t output_directory) (save_filename title)) t.tags with
      | .error e => .error e
      | .ok fs2 =>
        .ok (os_path_join (save_target_dir t output_directory) (save_filename title), fs2)

/-- The six logical field names, in the order the source lists them. -/
def fieldNames : List String :=
  ["title", "artist", "lyricist", "composer", "copyright", "comment"]

theorem set_frame_key_eq_get_frame_id (n : String) : set_frame_key n = get_frame_id n := rfl

theorem get_tag_eval (tags : ID3) (n fid : String) (h : get_frame_id n = some fid) :
    get_tag tags n = .ok ((alookup tags fid).getD "") := by
  simp only [get_tag, h]
  cases alookup tags fid <;> rfl

theorem get_frame_id_eq_none (name : String) (h : name ∉ fieldNames) :
    get_frame_id name = none := by
  simp only [fieldNames, List.mem_cons, List.not_mem_nil, or_false, not_or] at h
  obtain ⟨h1, h2, h3, h4, h5, h6⟩ := h
  simp [get_frame_id, h1, h2, h3, h4, h5, h6]

theorem set_tag_lookup (t t' : ID3) (name v fid : String)
    (hk : set_frame_key name = some fid) (hset : set_tag t name v = .ok t') :
    alookup t' fid = if pyStrip v = "" then none else some v := by
  simp only [set_tag, hk] at hset
  by_cases hv : pyStrip v = ""
  · rw [if_pos hv]
    rw [if_neg (not_not_intro hv)] at hset
    by_cases hc : (alookup t fid).isSome
    · rw [if_pos hc] at hset
      injection hset with h1
      rw [← h1, alookup_aerase_self]
    · rw [if_neg hc] at hset
      injection hset with h1
      rw [← h1]
      exact Option.not_isSome_iff_eq_none.mp hc
  · rw [if_neg hv]
    rw [if_pos hv] at hset
    injection hset with h1
    rw [← h1, alookup_ainsert_self]

theorem set_tag_lookup_other (t t' : ID3) (name v fid k : String)
    (hk : set_frame_key name = some fid) (hset : set_tag t name v = .ok t')
    (hne : k ≠ fid) : alookup t' k = alookup t k := by
  simp only [set_tag, hk] at hset
  by_cases hv : pyStrip v = ""
  · rw [if_neg (not_not_intro hv)] at hset
    by_cases hc : (alookup t fid).isSome
    · rw [if_pos hc] at hset
      injection hset with h1
      rw [← h1, alookup_aerase_other t fid k hne]
    · rw [if_neg hc] at hset
      injection hset with h1
      rw [← h1]
  · rw [if_pos hv] at hset
    injection hset with h1
    rw [← h1, alookup_ainsert_other t fid k v hne]

theorem get_tag_other_after_set (t t' : ID3) (a b v fa fb : String)
    (hset : set_tag t a v = .ok t') (hka : set_frame_key a = some fa)
    (hgb : get_frame_id b = some fb) (hne : fb ≠ fa) :
    get_tag t' b = get_tag t b := by
  rw [get_tag_eval t' b fb hgb, get_tag_eval t b fb hgb,
    set_tag_lookup_other t t' a v fa fb hka hset hne]

theorem copy2_ok_inv (fs : FS) (src dst : String) (fs1 : FS)
    (h : shutil_copy2 fs src dst = .ok fs1) :
    dst ≠ src ∧ ∃ c, alookup fs src = some c ∧ fs1 = ainsert fs dst c := by
  unfold shutil_copy2 at h
  by_cases hd : dst = src
  · rw [if_pos hd] at h
    simp at h
  · rw [if_neg hd] at h
    cases hc : alookup fs src with
    | none => rw [hc] at h; simp at h
    | some c =>
      rw [hc] at h
      simp only [Except.ok.injEq] at h
      exact ⟨hd, c, rfl, h.symm⟩

theorem id3_save_to_ok_inv (fs : FS) (p : String) (tags : ID3) (fs2 : FS)
    (h : id3_save_to fs p tags = .ok fs2) :
    ∃ fc, alookup fs p = some fc ∧ fs2 = ainsert fs p ⟨some tags, fc.audio⟩ := by
  unfold id3_save_to at h
  cases hc : alookup fs p with
  | none => rw [hc] at h; simp at h
  | some fc =>
    rw [hc] at h
    simp only [Except.ok.injEq] at h
    exact ⟨fc, rfl, h.symm⟩

theorem save_ok_inv (fs : FS) (t : MP3Tagger) (od : Option String) (p : String) (fs' : FS)
    (h : save_as_new_file fs t od = .ok (p, fs')) :
    ∃ ti src,
      get_tag t.tags "title" = .ok ti ∧
      alookup fs t.file_path = some src ∧
      p = os_path_join (save_target_dir t od) (save_filename ti) ∧
      p ≠ t.file_path ∧
      fs' = ainsert (ainsert fs p src) p ⟨some t.tags, src.audio⟩ := by
  unfold save_as_new_file at h
  split at h
  · simp at h
  · rename_i ti hti
    split at h
    · simp at h
    · rename_i fs1 hcp
      split at h
      · simp at h
      · rename_i fs2 hsv
        simp only [Except.ok.injEq, Prod.mk.injEq] at h
        obtain ⟨hp, hfs⟩ := h
        obtain ⟨hne, c, hsrc, hfs1⟩ := copy2_ok_inv fs t.file_path _ fs1 hcp
        obtain ⟨fc, hfc, hfs2⟩ := id3_save_to_ok_inv fs1 _ t.tags fs2 hsv
        subst hp
        subst hfs
        subst hfs1
        rw [alookup_ainsert_self] at hfc
        injection hfc with hfc'
        subst hfc'
        exact ⟨ti, c, hti, hsrc, rfl, hne, hfs2⟩

/-- C1 counterexample: `set_tag` stores the value untrimmed (`text=value`,
not `text=value.strip()`), so setting `" x "` and reading back returns
`" x "`, while the claim demands `" x ".strip() = "x"`. -/
theorem C1_trim_counterexample :
    set_tag ([] : ID3) "title" " x " = .ok [("TIT2", " x ")] ∧
    get_tag [("TIT2", " x ")] "title" = .ok " x " ∧
    pyStrip " x " = "x" ∧ (" x " : String) ≠ "x" :=
  ⟨rfl, rfl, rfl, by decide⟩

/-- C1 (amended): for each of the six logical names, `setField(name, v)`
followed by `getField(name)` returns `v` verbatim (not `v.trim()`) when
`v.trim()` is non-empty, and returns `""` when `v` is blank
(whitespace-only or empty). -/
theorem C1_set_then_get (name : String) (h : name ∈ fieldNames) (v : String)
    (t t' : ID3) (hset : set_tag t name v = .ok t') :
    get_tag t' name = .ok (if pyStrip v = "" then "" else v) := by
  have key : ∃ fid, set_frame_key name = some fid ∧ get_frame_id name = some fid := by
    fin_cases h <;> exact ⟨_, rfl, rfl⟩
  obtain ⟨fid, hk, hg⟩ := key
  rw [get_tag_eval t' name fid hg, set_tag_lookup t t' name v fid hk hset]
  by_cases hv : pyStrip v = "" <;> simp [hv]

theorem C1_set_then_get_witness :
    ("artist" ∈ fieldNames) ∧
    set_tag ([] : ID3) "artist" "Abba" = .ok [("TPE1", "Abba")] ∧
    get_tag [("TPE1", "Abba")] "artist" =
      .ok (if pyStrip "Abba" = "" then "" else "Abba") :=
  ⟨by decide, rfl, C1_set_then_get "artist" (by decide) "Abba" [] [("TPE1", "Abba")] rfl⟩

/-- C6: `get_tag` and `set_tag` on a name outside the six-entry catalog
fail with `ValueError` (`InvalidField`); on each catalog name both
operations succeed, so neither raises `InvalidField`. -/
theorem C6_unknown_field (name : String) :
    (name ∉ fieldNames →
      ∀ (t : ID3) (v : String),
        get_tag t name = .error (.valueError ("Unknown tag: " ++ name)) ∧
        set_tag t name v = .error (.valueError ("Unknown tag: " ++ name))) ∧
    (name ∈ fieldNames →
      ∀ (t : ID3) (v : String),
        (∃ s, get_tag t name = .ok s) ∧ (∃ t', set_tag t name v = .ok t')) := by
  constructor
  · intro h t v
    have hg := get_frame_id_eq_none name h
    have hk : set_frame_key name = none := by rw [set_frame_key_eq_get_frame_id, hg]
    exact ⟨by simp [get_tag, hg], by simp [set_tag, hk]⟩
  · intro h t v
    have key : ∃ fid, set_frame_key name = some fid ∧ get_frame_id name = some fid := by
      fin_cases h <;> exact ⟨_, rfl, rfl⟩
    obtain ⟨fid, hk, hg⟩ := key
    refine ⟨⟨(alookup t fid).getD "", get_tag_eval t name fid hg⟩, ?_⟩
    simp only [set_tag, hk]
    by_cases hv : pyStrip v = ""
    · rw [if_neg (not_not_intro hv)]
      by_cases hc : (alookup t fid).isSome
      · exact ⟨aerase t fid, by rw [if_pos hc]⟩
      · exact ⟨t, by rw [if_neg hc]⟩
    · exact ⟨ainsert t fid v, by rw [if_pos hv]⟩

theorem C6_unknown_field_witness :
    get_tag ([] : ID3) "year" = .error (.valueError ("Unknown tag: " ++ "year")) ∧
    (∃ t', set_tag ([] : ID3) "title" "X" = .ok t') :=
  ⟨((C6_unknown_field "year").1 (by decide) [] "").1,
   ((C6_unknown_field "title").2 (by decide) [] "X").2⟩

/-- C9: the six logical names map to six pairwise-distinct frame keys, so
`set_tag` on one field (store or delete) leaves `get_tag` on any other
field unchanged. -/
theorem C9_set_other_field (a b : String) (ha : a ∈ fieldNames) (hb : b ∈ fieldNames)
    (hab : a ≠ b) (v : String) (t t' : ID3) (hset : set_tag t a v = .ok t') :
    get_tag t' b = get_tag t b := by
  fin_cases ha <;> fin_cases hb <;>
    first
      | exact absurd rfl hab
      | exact get_tag_other_after_set t t' _ _ v _ _ hset rfl rfl (by decide)

theorem C9_set_other_field_witness :
    set_tag ([] : ID3) "title" "T" = .ok [("TIT2", "T")] ∧
    get_tag [("TIT2", "T")] "artist" = get_tag ([] : ID3) "artist" :=
  ⟨rfl, C9_set_other_field "title" "artist" (by decide) (by decide) (by decide)
    "T" [] [("TIT2", "T")] rfl⟩

/-- The spec's reading of `listAllFields`: six sequential `getField`
calls, one per logical name, assembled into the name-to-value mapping. -/
def listAllFields_spec (tags : ID3) : Except Err (List (String × String)) := do
  let tv ← get_tag tags "title"
  let av ← get_tag tags "artist"
  let lv ← get_tag tags "lyricist"
  let cv ← get_tag tags "composer"
  let pv ← get_tag tags "copyright"
  let mv ← get_tag tags "comment"
  return [("title", tv), ("artist", av), ("lyricist", lv),
          ("composer", cv), ("copyright", pv), ("comment", mv)]

/-- C8: `get_all_tags` returns exactly the six-name mapping built from
the corresponding `get_tag` reads (it is the same computation as six
sequential `getField` calls), and it is a pure read of the frame set: it
takes the frame set and returns only the mapping, modifying nothing. -/
theorem C8_get_all_tags (tags : ID3) :
    get_all_tags tags = listAllFields_spec tags ∧
    get_all_tags tags = .ok
      [("title", (alookup tags "TIT2").getD ""),
       ("artist", (alookup tags "TPE1").getD ""),
       ("lyricist", (alookup tags "TEXT").getD ""),
       ("composer", (alookup tags "TCOM").getD ""),
       ("copyright", (alookup tags "TCOP").getD ""),
       ("comment", (alookup tags "COMM::eng").getD "")] := by
  have h1 := get_tag_eval tags "title" "TIT2" rfl
  have h2 := get_tag_eval tags "artist" "TPE1" rfl
  have h3 := get_tag_eval tags "lyricist" "TEXT" rfl
  have h4 := get_tag_eval tags "composer" "TCOM" rfl
  have h5 := get_tag_eval tags "copyright" "TCOP" rfl
  have h6 := get_tag_eval tags "comment" "COMM::eng" rfl
  constructor
  · simp only [get_all_tags, listAllFields_spec, h1, h2, h3, h4, h5, h6, bind,
      Except.bind, pure, Except.pure]
  · simp only [get_all_tags, h1, h2, h3, h4, h5, h6]

/-- C3: constructing from a missing path fails with `FileNotFoundError`
(`NotFound`); from an existing path whose lowercased form does not end in
`.mp3` with `ValueError` (`InvalidFormat`); and from an existing path with
a case-insensitive `.mp3` extension construction succeeds, so neither
error is raised. -/
theorem C3_init_errors (fs : FS) (p : String) :
    (alookup fs p = none →
      MP3Tagger.init fs p = .error (.fileNotFound ("File not found: " ++ p))) ∧
    (∀ fc, alookup fs p = some fc → pyEndsWith (pyLower p) ".mp3" = false →
      MP3Tagger.init fs p = .error (.valueError "File must be an MP3 file")) ∧
    (∀ fc, alookup fs p = some fc → pyEndsWith (pyLower p) ".mp3" = true →
      ∃ t, MP3Tagger.init fs p = .ok t) := by
  refine ⟨?_, ?_, ?_⟩
  · intro h
    simp [MP3Tagger.init, h]
  · intro fc h hext
    simp [MP3Tagger.init, h, hext]
  · intro fc h hext
    exact ⟨⟨p, match fc.tagBlock with | some tb => tb | none => []⟩,
      by simp [MP3Tagger.init, h, hext]⟩

theorem C3_init_errors_witness :
    MP3Tagger.init ([] : FS) "a.mp3" =
      .error (.fileNotFound ("File not found: " ++ "a.mp3")) ∧
    MP3Tagger.init [("a.txt", ⟨none, 0⟩)] "a.txt" =
      .error (.valueError "File must be an MP3 file") ∧
    (∃ t, MP3Tagger.init [("A.MP3", ⟨none, 0⟩)] "A.MP3" = .ok t) :=
  ⟨(C3_init_errors [] "a.mp3").1 rfl,
   (C3_init_errors [("a.txt", ⟨none, 0⟩)] "a.txt").2.1 ⟨none, 0⟩ rfl rfl,
   (C3_init_errors [("A.MP3", ⟨none, 0⟩)] "A.MP3").2.2 ⟨none, 0⟩ rfl rfl⟩

/-- C5: constructing from an existing `.mp3` file whose tag block is
missing or unparseable succeeds with an empty frame set (not an error),
and `get_all_tags` on that state maps all six logical names to `""`. -/
theorem C5_untagged (fs : FS) (p : String) (fc : FileContent)
    (h : alookup fs p = some fc) (hext : pyEndsWith (pyLower p) ".mp3" = true)
    (hblock : fc.tagBlock = none) :
    MP3Tagger.init fs p = .ok ⟨p, []⟩ ∧
    get_all_tags ([] : ID3) = .ok
      [("title", ""), ("artist", ""), ("lyricist", ""),
       ("composer", ""), ("copyright", ""), ("comment", "")] := by
  refine ⟨?_, rfl⟩
  simp [MP3Tagger.init, h, hext, hblock]

theorem C5_untagged_witness :
    MP3Tagger.init [("/d/u.mp3", ⟨none, 3⟩)] "/d/u.mp3" = .ok ⟨"/d/u.mp3", []⟩ ∧
    get_all_tags ([] : ID3) = .ok
      [("title", ""), ("artist", ""), ("lyricist", ""),
       ("composer", ""), ("copyright", ""), ("comment", "")] :=
  C5_untagged [("/d/u.mp3", ⟨none, 3⟩)] "/d/u.mp3" ⟨none, 3⟩ rfl rfl rfl

/-- C4: a successful `save_as_new_file` leaves the source file's content
(and hence its frame set) untouched, gives the new file the source's
audio bytes with the in-memory frame set at call time, and afterwards the
new path differs from the source path and both files exist. -/
theorem C4_save_effect (fs : FS) (t : MP3Tagger) (od : Option String) (p : String)
    (fs' : FS) (h : save_as_new_file fs t od = .ok (p, fs')) :
    alookup fs' t.file_path = alookup fs t.file_path ∧
    (∃ src, alookup fs t.file_path = some src ∧
      alookup fs' p = some ⟨some t.tags, src.audio⟩) ∧
    p ≠ t.file_path ∧
    alookup fs' p ≠ none ∧ alookup fs' t.file_path ≠ none := by
  obtain ⟨ti, src, hti, hsrc, hp, hne, hfs⟩ := save_ok_inv fs t od p fs' h
  subst hfs
  have hsym : t.file_path ≠ p := Ne.symm hne
  refine ⟨?_, ⟨src, hsrc, ?_⟩, hne, ?_, ?_⟩
  · rw [alookup_ainsert_other _ _ _ _ hsym, alookup_ainsert_other _ _ _ _ hsym]
  · rw [alookup_ainsert_self]
  · rw [alookup_ainsert_self]
    simp
  · rw [alookup_ainsert_other _ _ _ _ hsym, alookup_ainsert_other _ _ _ _ hsym, hsrc]
    simp

theorem C4_save_effect_witness :
    MP3Tagger.init [("/d/u.mp3", ⟨none, 7⟩)] "/d/u.mp3" = .ok ⟨"/d/u.mp3", []⟩ ∧
    set_tag ([] : ID3) "title" "Test" = .ok [("TIT2", "Test")] ∧
    set_tag [("TIT2", "Test")] "copyright" "" = .ok [("TIT2", "Test")] ∧
    save_as_new_file [("/d/u.mp3", ⟨none, 7⟩)] ⟨"/d/u.mp3", [("TIT2", "Test")]⟩ none =
      .ok ("/d/Test ©️ Stiftelsen Skjulte Skatter Forlag.mp3",
        [("/d/u.mp3", ⟨none, 7⟩),
         ("/d/Test ©️ Stiftelsen Skjulte Skatter Forlag.mp3",
          ⟨some [("TIT2", "Test")], 7⟩)]) ∧
    MP3Tagger.init
        [("/d/u.mp3", ⟨none, 7⟩),
         ("/d/Test ©️ Stiftelsen Skjulte Skatter Forlag.mp3",
          ⟨some [("TIT2", "Test")], 7⟩)]
        "/d/Test ©️ Stiftelsen Skjulte Skatter Forlag.mp3" =
      .ok ⟨"/d/Test ©️ Stiftelsen Skjulte Skatter Forlag.mp3",
        [("TIT2", "Test")]⟩ ∧
    get_tag [("TIT2", "Test")] "title" = .ok "Test" ∧
    get_tag [("TIT2", "Test")] "copyright" = .ok "" ∧
    alookup
        [("/d/u.mp3", (⟨none, 7⟩ : FileContent)),
         ("/d/Test ©️ Stiftelsen Skjulte Skatter Forlag.mp3",
          ⟨some [("TIT2", "Test")], 7⟩)] "/d/u.mp3" =
      alookup [("/d/u.mp3", (⟨none, 7⟩ : FileContent))] "/d/u.mp3" :=
  ⟨rfl, rfl, rfl, rfl, rfl, rfl, rfl,
   (C4_save_effect [("/d/u.mp3", ⟨none, 7⟩)] ⟨"/d/u.mp3", [("TIT2", "Test")]⟩ none
     "/d/Test ©️ Stiftelsen Skjulte Skatter Forlag.mp3"
     [("/d/u.mp3", ⟨none, 7⟩),
      ("/d/Test ©️ Stiftelsen Skjulte Skatter Forlag.mp3",
       ⟨some [("TIT2", "Test")], 7⟩)] rfl).1⟩

theorem startsWithSlash_append (a b : String) (h : startsWithSlash a = true) :
    startsWithSlash (a ++ b) = true := by
  unfold startsWithSlash at h ⊢
  rw [String.data_append]
  cases ha : a.data with
  | nil => rw [ha] at h; simp at h
  | cons c l => rw [ha] at h; simpa using h

theorem os_path_join_abs (a b : String) (h : os_path_isabs a = true) :
    os_path_isabs (os_path_join a b) = true := by
  unfold os_path_isabs at h ⊢
  unfold os_path_join
  by_cases hb : startsWithSlash b = true
  · rw [if_pos hb]
    exact hb
  · rw [if_neg hb]
    have hane : ¬(a = "") := by
      intro ha
      rw [ha] at h
      simp [startsWithSlash] at h
    by_cases hsl : (a = "" || pyEndsWith a "/") = true
    · rw [if_pos hsl]
      exact startsWithSlash_append a b h
    · rw [if_neg hsl]
      rw [show a ++ "/" ++ b = (a ++ "/") ++ b from rfl]
      exact startsWithSlash_append _ b (startsWithSlash_append a "/" h)

/-- C7 counterexample: saving a tagger whose source path is relative (all
in the current directory) succeeds but returns a relative path, not an
absolute one — the code never calls `os.path.abspath`. -/
theorem C7_relative_counterexample :
    save_as_new_file [("song.mp3", ⟨some [("TIT2", "Test")], 0⟩)]
        ⟨"song.mp3", [("TIT2", "Test")]⟩ none =
      .ok ("Test ©️ Stiftelsen Skjulte Skatter Forlag.mp3",
        [("song.mp3", ⟨some [("TIT2", "Test")], 0⟩),
         ("Test ©️ Stiftelsen Skjulte Skatter Forlag.mp3",
          ⟨some [("TIT2", "Test")], 0⟩)]) ∧
    os_path_isabs "Test ©️ Stiftelsen Skjulte Skatter Forlag.mp3" = false :=
  ⟨rfl, rfl⟩

/-- C7 (amended): a successful `save_as_new_file` returns the new file's
path, namely `os.path.join` of the target directory (the argument when
truthy, else the source file's directory) with the generated filename;
this path is absolute whenever that directory is absolute, but relative
when it is relative. -/
theorem C7_returned_path (fs : FS) (t : MP3Tagger) (od : Option String) (p : String)
    (fs' : FS) (ti : String) (h : save_as_new_file fs t od = .ok (p, fs'))
    (hti : get_tag t.tags "title" = .ok ti) :
    p = os_path_join (save_target_dir t od) (save_filename ti) ∧
    (os_path_isabs (save_target_dir t od) = true → os_path_isabs p = true) := by
  obtain ⟨ti', src, hti', hsrc, hp, hne, hfs⟩ := save_ok_inv fs t od p fs' h
  rw [hti] at hti'
  injection hti' with he
  subst he
  refine ⟨hp, ?_⟩
  intro habs
  rw [hp]
  exact os_path_join_abs _ _ habs

theorem C7_returned_path_witness :
    save_as_new_file [("/m/a.mp3", ⟨some [("TIT2", "My Song")], 0⟩)]
        ⟨"/m/a.mp3", [("TIT2", "My Song")]⟩ none =
      .ok ("/m/My Song ©️ Stiftelsen Skjulte Skatter Forlag.mp3",
        [("/m/a.mp3", ⟨some [("TIT2", "My Song")], 0⟩),
         ("/m/My Song ©️ Stiftelsen Skjulte Skatter Forlag.mp3",
          ⟨some [("TIT2", "My Song")], 0⟩)]) ∧
    "/m/My Song ©️ Stiftelsen Skjulte Skatter Forlag.mp3" =
      os_path_join
        (save_target_dir ⟨"/m/a.mp3", [("TIT2", "My Song")]⟩ none)
        (save_filename "My Song") ∧
    os_path_isabs "/m/My Song ©️ Stiftelsen Skjulte Skatter Forlag.mp3" = true :=
  ⟨rfl,
   (C7_returned_path [("/m/a.mp3", ⟨some [("TIT2", "My Song")], 0⟩)]
     ⟨"/m/a.mp3", [("TIT2", "My Song")]⟩ none
     "/m/My Song ©️ Stiftelsen Skjulte Skatter Forlag.mp3"
     [("/m/a.mp3", ⟨some [("TIT2", "My Song")], 0⟩),
      ("/m/My Song ©️ Stiftelsen Skjulte Skatter Forlag.mp3",
       ⟨some [("TIT2", "My Song")], 0⟩)] "My Song" rfl rfl).1,
   (C7_returned_path [("/m/a.mp3", ⟨some [("TIT2", "My Song")], 0⟩)]
     ⟨"/m/a.mp3", [("TIT2", "My Song")]⟩ none
     "/m/My Song ©️ Stiftelsen Skjulte Skatter Forlag.mp3"
     [("/m/a.mp3", ⟨some [("TIT2", "My Song")], 0⟩),
      ("/m/My Song ©️ Stiftelsen Skjulte Skatter Forlag.mp3",
       ⟨some [("TIT2", "My Song")], 0⟩)] "My Song" rfl rfl).2 rfl⟩

/-- C2 counterexample: with title `"My Song"` the produced filename uses
the source's two-codepoint glyph U+00A9 U+FE0F, so the file named with the
claim's plain U+00A9 glyph is not the one produced and does not exist. -/
theorem C2_glyph_counterexample :
    save_as_new_file [("/m/a.mp3", ⟨some [("TIT2", "My Song")], 0⟩)]
        ⟨"/m/a.mp3", [("TIT2", "My Song")]⟩ none =
      .ok ("/m/My Song ©️ Stiftelsen Skjulte Skatter Forlag.mp3",
        [("/m/a.mp3", ⟨some [("TIT2", "My Song")], 0⟩),
         ("/m/My Song ©️ Stiftelsen Skjulte Skatter Forlag.mp3",
          ⟨some [("TIT2", "My Song")], 0⟩)]) ∧
    alookup
        [("/m/a.mp3", (⟨some [("TIT2", "My Song")], 0⟩ : FileContent)),
         ("/m/My Song ©️ Stiftelsen Skjulte Skatter Forlag.mp3",
          ⟨some [("TIT2", "My Song")], 0⟩)]
        "/m/My Song © Stiftelsen Skjulte Skatter Forlag.mp3" = none ∧
    ("My Song ©️ Stiftelsen Skjulte Skatter Forlag.mp3" : String) ≠
      "My Song © Stiftelsen Skjulte Skatter Forlag.mp3" :=
  ⟨rfl, rfl, by decide⟩

/-- C2 (amended): with title `"My Song"` a successful `save_as_new_file`
produces, in the target directory, the file
`"My Song ©️ Stiftelsen Skjulte Skatter Forlag.mp3"` where the glyph is
U+00A9 followed by U+FE0F; with empty title it produces
`"Untitled ©️ Stiftelsen Skjulte Skatter Forlag.mp3"` with the same
glyph. -/
theorem C2_filename_amended (fs : FS) (t : MP3Tagger) (od : Option String) (p : String)
    (fs' : FS) (ti : String) (h : save_as_new_file fs t od = .ok (p, fs'))
    (hti : get_tag t.tags "title" = .ok ti) :
    (ti = "My Song" →
      p = os_path_join (save_target_dir t od)
        "My Song ©️ Stiftelsen Skjulte Skatter Forlag.mp3" ∧
      alookup fs' p ≠ none) ∧
    (ti = "" →
      p = os_path_join (save_target_dir t od)
        "Untitled ©️ Stiftelsen Skjulte Skatter Forlag.mp3" ∧
      alookup fs' p ≠ none) := by
  obtain ⟨ti', src, hti', hsrc, hp, hne, hfs⟩ := save_ok_inv fs t od p fs' h
  rw [hti] at hti'
  injection hti' with he
  subst he
  subst hfs
  constructor
  · rintro rfl
    refine ⟨hp, ?_⟩
    rw [alookup_ainsert_self]
    simp
  · rintro rfl
    refine ⟨hp, ?_⟩
    rw [alookup_ainsert_self]
    simp

theorem C2_filename_amended_witness :
    ("/m/My Song ©️ Stiftelsen Skjulte Skatter Forlag.mp3" =
      os_path_join
        (save_target_dir ⟨"/m/a.mp3", [("TIT2", "My Song")]⟩ none)
        "My Song ©️ Stiftelsen Skjulte Skatter Forlag.mp3" ∧
     alookup
        [("/m/a.mp3", (⟨some [("TIT2", "My Song")], 0⟩ : FileContent)),
         ("/m/My Song ©️ Stiftelsen Skjulte Skatter Forlag.mp3",
          ⟨some [("TIT2", "My Song")], 0⟩)]
        "/m/My Song ©️ Stiftelsen Skjulte Skatter Forlag.mp3" ≠ none) ∧
    ("/m/Untitled ©️ Stiftelsen Skjulte Skatter Forlag.mp3" =
      os_path_join
        (save_target_dir ⟨"/m/b.mp3", []⟩ none)
        "Untitled ©️ Stiftelsen Skjulte Skatter Forlag.mp3" ∧
     alookup
        [("/m/b.mp3", (⟨some [], 0⟩ : FileContent)),
         ("/m/Untitled ©️ Stiftelsen Skjulte Skatter Forlag.mp3",
          ⟨some [], 0⟩)]
        "/m/Untitled ©️ Stiftelsen Skjulte Skatter Forlag.mp3" ≠ none) :=
  ⟨(C2_filename_amended [("/m/a.mp3", ⟨some [("TIT2", "My Song")], 0⟩)]
      ⟨"/m/a.mp3", [("TIT2", "My Song")]⟩ none
      "/m/My Song ©️ Stiftelsen Skjulte Skatter Forlag.mp3"
      [("/m/a.mp3", ⟨some [("TIT2", "My Song")], 0⟩),
       ("/m/My Song ©️ Stiftelsen Skjulte Skatter Forlag.mp3",
        ⟨some [("TIT2", "My Song")], 0⟩)] "My Song" rfl rfl).1 rfl,
   (C2_filename_amended [("/m/b.mp3", ⟨some [], 0⟩)]
      ⟨"/m/b.mp3", []⟩ none
      "/m/Untitled ©️ Stiftelsen Skjulte Skatter Forlag.mp3"
      [("/m/b.mp3", ⟨some [], 0⟩),
       ("/m/Untitled ©️ Stiftelsen Skjulte Skatter Forlag.mp3",
        ⟨some [], 0⟩)] "" rfl rfl).2 rfl⟩

/-- C10: the `"Untitled"` substitution fires exactly when the title read
back from the frame set is the empty string; any other title — including
a whitespace-only one loaded from a pre-existing tag block — is used
verbatim in the output filename. -/
theorem C10_untitled_condition (fs : FS) (t : MP3Tagger) (od : Option String) (p : String)
    (fs' : FS) (ti : String) (h : save_as_new_file fs t od = .ok (p, fs'))
    (hti : get_tag t.tags "title" = .ok ti) :
    p = os_path_join (save_target_dir t od)
      ((if ti = "" then "Untitled" else ti) ++
        " ©️ Stiftelsen Skjulte Skatter Forlag.mp3") := by
  obtain ⟨ti', src, hti', hsrc, hp, hne, hfs⟩ := save_ok_inv fs t od p fs' h
  rw [hti] at hti'
  injection hti' with he
  subst he
  exact hp

theorem C10_untitled_condition_witness :
    save_as_new_file [("/d/s.mp3", ⟨some [("TIT2", "   ")], 0⟩)]
        ⟨"/d/s.mp3", [("TIT2", "   ")]⟩ none =
      .ok ("/d/    ©️ Stiftelsen Skjulte Skatter Forlag.mp3",
        [("/d/s.mp3", ⟨some [("TIT2", "   ")], 0⟩),
         ("/d/    ©️ Stiftelsen Skjulte Skatter Forlag.mp3",
          ⟨some [("TIT2", "   ")], 0⟩)]) ∧
    "/d/    ©️ Stiftelsen Skjulte Skatter Forlag.mp3" =
      os_path_join (save_target_dir ⟨"/d/s.mp3", [("TIT2", "   ")]⟩ none)
        ((if "   " = "" then "Untitled" else "   ") ++
          " ©️ Stiftelsen Skjulte Skatter Forlag.mp3") ∧
    ("   " : String) ≠ "" ∧ pyStrip "   " = "" :=
  ⟨rfl,
   C10_untitled_condition [("/d/s.mp3", ⟨some [("TIT2", "   ")], 0⟩)]
     ⟨"/d/s.mp3", [("TIT2", "   ")]⟩ none
     "/d/    ©️ Stiftelsen Skjulte Skatter Forlag.mp3"
     [("/d/s.mp3", ⟨some [("TIT2", "   ")], 0⟩),
      ("/d/    ©️ Stiftelsen Skjulte Skatter Forlag.mp3",
       ⟨some [("TIT2", "   ")], 0⟩)] "   " rfl rfl,
   by decide, rfl⟩

end Copyrighter
